import Mathlib

/-!
Verification of the request-observability and error-normalization pipeline of
the nodejs-training backend: the centralized Fastify error handler
(`errorHandler`, src middleware) and the request logger hooks
(`requestLogger`, src/src/middleware/request-logger.ts), shallowly embedded
in Lean.  JavaScript objects are modelled with explicit `Option` fields
(`none` = the property is `undefined` / absent), JavaScript string and number
truthiness is modelled explicitly, and the serialized JSON bodies are
modelled with keys whose value is `undefined` dropped, as `JSON.stringify`
does.
-/

namespace NodeBackend

/-- JSON-serializable values, as produced in response bodies and log fields. -/
inductive JsonV where
  | null
  | str (s : String)
  | num (n : Int)
  | jbool (b : Bool)
  | arr (elems : List JsonV)
  | obj (fields : List (String × JsonV))

/-- Build a JSON object from JavaScript object fields: a field whose value is
`undefined` (`none`) is dropped, exactly as `JSON.stringify` drops it from
the serialized body. -/
def mkObj (fields : List (String × Option JsonV)) : JsonV :=
  .obj (fields.filterMap fun p => p.2.map fun v => (p.1, v))

/-- Look a key up in a JSON object (first occurrence); `none` on non-objects. -/
def JsonV.lookup (j : JsonV) (k : String) : Option JsonV :=
  match j with
  | .obj fs => fs.lookup k
  | _ => none

/-- Project a string out of an optional JSON value. -/
def getStr (o : Option JsonV) : Option String :=
  match o with
  | some (.str s) => some s
  | _ => none

/-- NODE_ENV values accepted by the configuration schema (src/src/config/index.ts). -/
inductive NodeEnv where
  | development
  | production
  | test
  deriving DecidableEq

/-- The slice of the validated configuration the error handler reads:
`config.NODE_ENV` (src/src/config/index.ts). -/
structure Config where
  NODE_ENV : NodeEnv

/-- The `params` record of a Fastify validation problem; the handler only
reads the keys `providedValue` and `allowedValues`, either of which may be
absent. -/
structure ValidationParams where
  providedValue : Option JsonV
  allowedValues : Option JsonV

/-- One entry of `CustomError.validation` (interface in the error-handler
source): `instancePath: string; message: string; schemaPath?: string;
params?: Record<string, unknown>`. -/
structure ValidationProblem where
  instancePath : String
  message : String
  schemaPath : Option String
  params : Option ValidationParams

/-- The duck-typed error object the handler inspects (`CustomError` in the
source).  `message`: `none` models a missing `message` property, `some ""`
an empty one.  `statusCode`: the outer `Option` models whether the
`statusCode` property exists on the object (the source tests
`'statusCode' in err`), the inner one whether its value is a number or
`undefined`.  `validation`: `none` models an absent property; any array
(even `[]`) is truthy in JavaScript, hence `some` always takes the
validation branch. -/
structure CustomError where
  message : Option String
  statusCode : Option (Option Int)
  validation : Option (List ValidationProblem)
  stack : Option String

/-- JavaScript `m || d` on an optional string: `undefined` and `""` are
falsy. -/
def strOr (m : Option String) (d : String) : String :=
  match m with
  | some s => if s = "" then d else s
  | none => d

/-- JavaScript truthiness of an optional string. -/
def strTruthy (m : Option String) : Bool :=
  match m with
  | some s => if s = "" then false else true
  | none => false

/-- The response produced by `reply.code(c).send(body)`. -/
structure Reply where
  statusCode : Int
  body : JsonV

/-- Mapping of one validation problem into a `details` entry, from the source:
`{field: v.instancePath || v.schemaPath, message: v.message,
provided: v.params?.providedValue, expected: v.params?.allowedValues}`.
An empty `instancePath` is falsy, so `field` falls back to `schemaPath`;
absent values are dropped from the serialized object. -/
def mkDetail (v : ValidationProblem) : JsonV :=
  mkObj [("field", if v.instancePath = "" then v.schemaPath.map .str
                   else some (.str v.instancePath)),
         ("message", some (.str v.message)),
         ("provided", v.params.bind (fun p => p.providedValue)),
         ("expected", v.params.bind (fun p => p.allowedValues))]

/-- Fixed category string for a tagged status code (the `error` field of each
branch of the handler's switch). -/
def categoryFor (n : Int) : String :=
  if n = 400 then "Bad Request"
  else if n = 401 then "Unauthorized"
  else if n = 403 then "Forbidden"
  else if n = 404 then "Not Found"
  else if n = 409 then "Conflict"
  else if n = 422 then "Unprocessable Entity"
  else if n = 429 then "Too Many Requests"
  else "Internal Server Error"

/-- Default message substituted by the handler when the error's message is
falsy; only the 401/403/404/409/422/429 branches have one (the 400 branch
sends `err.message` with no default). -/
def defaultMsgFor (n : Int) : Option String :=
  if n = 401 then some "Authentication required"
  else if n = 403 then some "Access denied"
  else if n = 404 then some "Resource not found"
  else if n = 409 then some "Resource conflict"
  else if n = 422 then some "Request could not be processed"
  else if n = 429 then some "Rate limit exceeded"
  else none

/-- The message of the 500 envelope: masked in production, otherwise
`err.message || 'Internal server error'`. -/
def internalMessage (cfg : Config) (e : CustomError) : String :=
  if cfg.NODE_ENV = NodeEnv.production then "Something went wrong"
  else strOr e.message "Internal server error"

/-- The generic 500 envelope body. -/
def internalBody (cfg : Config) (e : CustomError) : JsonV :=
  mkObj [("error", some (.str "Internal Server Error")),
         ("message", some (.str (internalMessage cfg e)))]

/-- A two-field envelope body `{error, message}`; `message` may be absent. -/
def simpleBody (category : String) (message : Option JsonV) : JsonV :=
  mkObj [("error", some (.str category)), ("message", message)]

/-- The centralized Fastify error handler (`errorHandler` in the source),
restricted to the reply it produces.  Classification order is the source's:
the truthy-`validation` branch first, then the `'statusCode' in err` switch
(unrecognized, `undefined`, and 500 codes all reach the `default:` branch,
which replies with `err.statusCode || 500`), then the generic 500 branch. -/
def errorHandler (cfg : Config) (e : CustomError) : Reply :=
  match e.validation with
  | some probs =>
      { statusCode := 400,
        body := mkObj [("error", some (.str "Validation Error")),
                       ("message", some (.str "Request validation failed")),
                       ("details", some (.arr (probs.map mkDetail)))] }
  | none =>
      match e.statusCode with
      | some sc =>
          match sc with
          | some n =>
              if n = 400 then ⟨400, simpleBody "Bad Request" (e.message.map .str)⟩
              else if n = 401 then
                ⟨401, simpleBody "Unauthorized"
                    (some (.str (strOr e.message "Authentication required")))⟩
              else if n = 403 then
                ⟨403, simpleBody "Forbidden"
                    (some (.str (strOr e.message "Access denied")))⟩
              else if n = 404 then
                ⟨404, simpleBody "Not Found"
                    (some (.str (strOr e.message "Resource not found")))⟩
              else if n = 409 then
                ⟨409, simpleBody "Conflict"
                    (some (.str (strOr e.message "Resource conflict")))⟩
              else if n = 422 then
                ⟨422, simpleBody "Unprocessable Entity"
                    (some (.str (strOr e.message "Request could not be processed")))⟩
              else if n = 429 then
                ⟨429, simpleBody "Too Many Requests"
                    (some (.str (strOr e.message "Rate limit exceeded")))⟩
              else ⟨if n = 0 then 500 else n, internalBody cfg e⟩
          | none => ⟨500, internalBody cfg e⟩
      | none => ⟨500, internalBody cfg e⟩

/-- The string stored at key `k` of a reply's body. -/
def strField (r : Reply) (k : String) : Option String :=
  getStr (r.body.lookup k)

/-! The request logger (src/src/middleware/request-logger.ts): three Fastify
hooks sharing per-request state stored on the request object.  Observable
behavior is modelled as a list of effects; clock reads (`Date.now()`) and
the random draw of `Math.random()` are explicit inputs. -/

/-- One observable effect of the pipeline, in emission order: a structured
log record handed to the logger sink, a response header mutation, setting
the reply status code, handing the body to the framework, and the
framework's final flush of the response to the transport. -/
inductive Effect where
  | log (level : String) (message : String) (fields : JsonV)
  | header (name : String) (value : String)
  | code (status : Int)
  | send (body : JsonV)
  | flush

/-- The request data read by the hooks and the error handler's log call. -/
structure RequestInfo where
  method : String
  url : String
  ip : String
  userAgent : Option String
  contentType : Option String
  contentLength : Option String
  query : JsonV
  params : JsonV
  body : JsonV

/-- The per-request fields the logger stores on the request object
(`request.requestId`, `request.startTime`); both are absent before the
onRequest hook runs. -/
structure ReqCtx where
  requestId : Option String
  startTime : Option Int

/-- Base-36 digit character, as used by `Number.prototype.toString(36)`:
`0`-`9` then `a`-`z`. -/
def digitChar (d : Fin 36) : Char :=
  if d.val < 10 then Char.ofNat (48 + d.val) else Char.ofNat (87 + d.val)

/-- `Math.random().toString(36).substr(2, 9)`.  The random draw is
represented by the base-36 fractional digits of the returned double (the
shortest expansion, as `toString` prints it, so no trailing zeros; the draw
`0` is the empty list, printed as `"0"`).  `substr(2, 9)` drops the leading
`"0."` and keeps at most nine digit characters; on the string `"0"` it
yields the empty string. -/
def genRequestId (rand : List (Fin 36)) : String :=
  String.mk ((rand.take 9).map digitChar)

/-- Fields of the "Incoming request" log event. -/
def incomingFields (rid : String) (req : RequestInfo) : JsonV :=
  mkObj [("requestId", some (.str rid)),
         ("method", some (.str req.method)),
         ("url", some (.str req.url)),
         ("ip", some (.str req.ip)),
         ("userAgent", req.userAgent.map .str),
         ("contentType", req.contentType.map .str),
         ("contentLength", req.contentLength.map .str),
         ("query", some req.query),
         ("params", some req.params)]

/-- The onRequest hook: draws a request id, stores it and the current time
on the request, sets the `X-Request-ID` response header, then logs the
"Incoming request" event.  `now` is the value of `Date.now()` at hook
entry. -/
def onRequestHook (now : Int) (rand : List (Fin 36)) (req : RequestInfo) :
    ReqCtx × List Effect :=
  let rid := genRequestId rand
  ({ requestId := some rid, startTime := some now },
   [.header "X-Request-ID" rid,
    .log "info" "Incoming request" (incomingFields rid req)])

/-- `Date.now() - (request.startTime || Date.now())`: `t1` is the first
`Date.now()` read (the minuend), `t2` the second, evaluated only when
`startTime` is falsy (absent or `0`). -/
def respDuration (t1 t2 : Int) (startTime : Option Int) : Int :=
  t1 - (match startTime with
        | some s => if s = 0 then t2 else s
        | none => t2)

/-- `reply.getHeader('content-length') || 0`. -/
def clOr0 (cl : Option String) : JsonV :=
  match cl with
  | some s => if s = "" then .num 0 else .str s
  | none => .num 0

/-- The onResponse hook: computes the duration from the stored start time
and logs the "Request completed" event.  `status` is `reply.statusCode`,
`respCL` the reply's content-length header. -/
def onResponseHook (t1 t2 : Int) (req : RequestInfo) (ctx : ReqCtx)
    (status : Int) (respCL : Option String) : List Effect :=
  let duration := respDuration t1 t2 ctx.startTime
  [.log "info" "Request completed"
     (mkObj [("requestId", ctx.requestId.map .str),
             ("method", some (.str req.method)),
             ("url", some (.str req.url)),
             ("statusCode", some (.num status)),
             ("duration", some (.str (toString duration ++ "ms"))),
             ("contentLength", some (clOr0 respCL))])]

/-- The onError hook: computes the duration the same way and logs the
"Request failed" event with the error's message, stack, and status code. -/
def onErrorHook (t1 t2 : Int) (req : RequestInfo) (ctx : ReqCtx)
    (e : CustomError) : List Effect :=
  let duration := respDuration t1 t2 ctx.startTime
  [.log "error" "Request failed"
     (mkObj [("requestId", ctx.requestId.map .str),
             ("method", some (.str req.method)),
             ("url", some (.str req.url)),
             ("error", some (mkObj
                [("message", e.message.map .str),
                 ("stack", e.stack.map .str),
                 ("statusCode", (e.statusCode.bind id).map .num)])),
             ("duration", some (.str (toString duration ++ "ms")))])]

/-- Serialization of a raw validation problem as the error handler logs it. -/
def rawProblemJson (v : ValidationProblem) : JsonV :=
  mkObj [("instancePath", some (.str v.instancePath)),
         ("message", some (.str v.message)),
         ("schemaPath", v.schemaPath.map .str),
         ("params", v.params.map fun p =>
            mkObj [("providedValue", p.providedValue),
                   ("allowedValues", p.allowedValues)])]

/-- Fields of the handler's unconditional "Request error" log event. -/
def handlerLogFields (req : RequestInfo) (e : CustomError) : JsonV :=
  mkObj [("error", some (mkObj
            [("message", e.message.map .str),
             ("stack", e.stack.map .str),
             ("statusCode", (e.statusCode.bind id).map .num),
             ("validation", e.validation.map fun ps =>
                .arr (ps.map rawProblemJson))])),
         ("request", some (mkObj
            [("method", some (.str req.method)),
             ("url", some (.str req.url)),
             ("params", some req.params),
             ("query", some req.query),
             ("body", some req.body),
             ("ip", some (.str req.ip)),
             ("userAgent", req.userAgent.map .str)]))]

/-- The error handler's observable effects, in source order: it first logs
the "Request error" event, then every branch performs exactly one
`reply.code(c).send(body)` — the code is set, then the body handed over. -/
def errorHandlerTrace (cfg : Config) (req : RequestInfo) (e : CustomError) :
    List Effect :=
  [.log "error" "Request error" (handlerLogFields req e),
   .code (errorHandler cfg e).statusCode,
   .send (errorHandler cfg e).body]

/-- Modelled from the spec: the framework dispatch wiring (Fastify itself,
not part of this repository) invokes, for a successfully handled request,
the onRequest hook before the route handler and the completion hook after
the response is computed but before it is sent (spec sections 2, 5 and 6);
the flush to the transport comes last. -/
def successLifecycle (tStart : Int) (rand : List (Fin 36)) (req : RequestInfo)
    (t1 t2 : Int) (status : Int) (respCL : Option String) : List Effect :=
  let h := onRequestHook tStart rand req
  h.2 ++ onResponseHook t1 t2 req h.1 status respCL ++ [.flush]

/-- Modelled from the spec: for a failed request the framework invokes the
onRequest hook, then — after the handler throws — the tracer's error hook
and the centralized error handler, and flushes the response last (spec
sections 2, 5 and 6); the spec does not fix the relative order of the two
error-path log events, which none of the stated properties need. -/
def failureLifecycle (cfg : Config) (tStart : Int) (rand : List (Fin 36))
    (req : RequestInfo) (t1 t2 : Int) (e : CustomError) : List Effect :=
  let h := onRequestHook tStart rand req
  h.2 ++ onErrorHook t1 t2 req h.1 e ++ errorHandlerTrace cfg req e ++ [.flush]

/-! Observation helpers on effect traces. -/

/-- Is the effect a log event with the given message? -/
def isLogMsg (m : String) (e : Effect) : Bool :=
  match e with
  | .log _ m' _ => m' == m
  | _ => false

/-- Is the effect a `send`? -/
def isSend (e : Effect) : Bool :=
  match e with
  | .send _ => true
  | _ => false

/-- Is the effect a `code`? -/
def isCode (e : Effect) : Bool :=
  match e with
  | .code _ => true
  | _ => false

/-- Is the effect the final flush? -/
def isFlush (e : Effect) : Bool :=
  match e with
  | .flush => true
  | _ => false

/-- Value of the first header effect with the given name. -/
def getHeader (t : List Effect) (n : String) : Option String :=
  t.findSome? fun e =>
    match e with
    | .header n' v => if n' == n then some v else none
    | _ => none

/-- Body of the first `send` effect. -/
def sentBody (t : List Effect) : Option JsonV :=
  t.findSome? fun e =>
    match e with
    | .send b => some b
    | _ => none

/-- Status of the first `code` effect. -/
def sentCode (t : List Effect) : Option Int :=
  t.findSome? fun e =>
    match e with
    | .code c => some c
    | _ => none

/-- Number of `send` effects in a trace. -/
def sendCount (t : List Effect) : Nat :=
  t.countP isSend

/-- Number of `code` effects in a trace. -/
def codeCount (t : List Effect) : Nat :=
  t.countP isCode

/-- Fields of the first log event carrying the given message. -/
def logFieldsOf (t : List Effect) (msg : String) : Option JsonV :=
  t.findSome? fun e =>
    match e with
    | .log _ m f => if m == msg then some f else none
    | _ => none

/-- String value of field `k` of the first log event with message `msg`. -/
def logFieldStr (t : List Effect) (msg k : String) : Option String :=
  match logFieldsOf t msg with
  | some f => getStr (f.lookup k)
  | none => none

/-! Sample inputs used by concrete evaluations. -/

/-- Development-mode configuration sample. -/
def cfgDev : Config := ⟨NodeEnv.development⟩

/-- Production-mode configuration sample. -/
def cfgProd : Config := ⟨NodeEnv.production⟩

/-- Request sample, mirroring the mock request of the error-handler unit
test. -/
def sampleReq : RequestInfo :=
  ⟨"GET", "/test", "127.0.0.1", some "test-agent", none, none,
   .obj [], .obj [], .obj []⟩

/-- Validation-problem sample, mirroring the error-handler unit test. -/
def sampleProblem : ValidationProblem :=
  ⟨"/email", "must be string", some "#/properties/email/type", none⟩

/-! Theorems. -/

/-- Falsy messages make `m || d` evaluate to the default. -/
theorem strOr_of_falsy (m : Option String) (d : String)
    (h : strTruthy m = false) : strOr m d = d := by
  cases m with
  | none => rfl
  | some s =>
      by_cases hs : s = ""
      · simp [strOr, hs]
      · simp [strTruthy, hs] at h

/-- C1: for every error carrying a non-empty validation-problem list, the
handler responds 400 with the `Validation Error` envelope whose `details`
maps each problem to `{field, message, provided, expected}`, regardless of
any status code also present on the error. -/
theorem validation_precedence (cfg : Config) (e : CustomError)
    (probs : List ValidationProblem) (hv : e.validation = some probs)
    (hne : probs ≠ []) :
    (errorHandler cfg e).statusCode = 400 ∧
    strField (errorHandler cfg e) "error" = some "Validation Error" ∧
    strField (errorHandler cfg e) "message" = some "Request validation failed" ∧
    (errorHandler cfg e).body.lookup "details" =
      some (.arr (probs.map mkDetail)) := by
  simp [errorHandler, hv, strField, getStr, JsonV.lookup, mkObj, List.lookup]

/-- Witness for C1: a one-problem validation error that also carries
status code 503 still yields the 400 validation envelope. -/
theorem validation_precedence_witness :
    (errorHandler cfgDev
        ⟨none, some (some 503), some [sampleProblem], none⟩).statusCode = 400 ∧
    strField (errorHandler cfgDev
        ⟨none, some (some 503), some [sampleProblem], none⟩) "error" =
      some "Validation Error" ∧
    strField (errorHandler cfgDev
        ⟨none, some (some 503), some [sampleProblem], none⟩) "message" =
      some "Request validation failed" ∧
    (errorHandler cfgDev
        ⟨none, some (some 503), some [sampleProblem], none⟩).body.lookup
        "details" = some (.arr ([sampleProblem].map mkDetail)) :=
  validation_precedence cfgDev
    ⟨none, some (some 503), some [sampleProblem], none⟩
    [sampleProblem] rfl (by simp)

/-- C10: an error whose `validation` property is present but empty still
takes the validation branch — any array is truthy — yielding 400, the
`Validation Error` envelope, and an empty `details` array; any status code
on the error is ignored. -/
theorem empty_validation_branch (cfg : Config) (e : CustomError)
    (hv : e.validation = some []) :
    (errorHandler cfg e).statusCode = 400 ∧
    strField (errorHandler cfg e) "error" = some "Validation Error" ∧
    strField (errorHandler cfg e) "message" = some "Request validation failed" ∧
    (errorHandler cfg e).body.lookup "details" = some (.arr []) := by
  simp [errorHandler, hv, strField, getStr, JsonV.lookup, mkObj, List.lookup]

/-- Witness for C10: an error with `validation = []` and status code 404
gets the 400 validation envelope with empty details. -/
theorem empty_validation_branch_witness :
    (errorHandler cfgDev
        ⟨some "nope", some (some 404), some [], none⟩).statusCode = 400 ∧
    strField (errorHandler cfgDev
        ⟨some "nope", some (some 404), some [], none⟩) "error" =
      some "Validation Error" ∧
    strField (errorHandler cfgDev
        ⟨some "nope", some (some 404), some [], none⟩) "message" =
      some "Request validation failed" ∧
    (errorHandler cfgDev
        ⟨some "nope", some (some 404), some [], none⟩).body.lookup
        "details" = some (.arr []) :=
  empty_validation_branch cfgDev
    ⟨some "nope", some (some 404), some [], none⟩ rfl

/-- C9: an error without validation list whose present, truthy status code
is neither one of the seven mapped codes nor 500 is answered with that very
status code — not 500 — but with the `Internal Server Error` envelope and
the environment-gated message. -/
theorem unrecognized_status_passthrough (cfg : Config) (e : CustomError)
    (n : Int) (hv : e.validation = none) (hs : e.statusCode = some (some n))
    (hn0 : n ≠ 0)
    (hmem : n ∉ ([400, 401, 403, 404, 409, 422, 429] : List Int))
    (h500 : n ≠ 500) :
    (errorHandler cfg e).statusCode = n ∧
    strField (errorHandler cfg e) "error" = some "Internal Server Error" ∧
    (cfg.NODE_ENV = NodeEnv.production →
      strField (errorHandler cfg e) "message" = some "Something went wrong") ∧
    (cfg.NODE_ENV ≠ NodeEnv.production →
      strField (errorHandler cfg e) "message" =
        some (strOr e.message "Internal server error")) := by
  simp only [List.mem_cons, List.mem_singleton, not_or] at hmem
  obtain ⟨h400, h401, h403, h404, h409, h422, h429⟩ := hmem
  refine ⟨?_, ?_, ?_, ?_⟩ <;>
    simp [errorHandler, hv, hs, h400, h401, h403, h404, h409, h422, h429,
      hn0, strField, getStr, JsonV.lookup, mkObj, internalBody,
      internalMessage, List.lookup]
  · intro hp
    simp [hp]
  · intro hp
    simp [hp]

/-- Witness for C9: status code 418 with no validation list passes through
as the response status with the internal-error envelope. -/
theorem unrecognized_status_passthrough_witness :
    (errorHandler cfgDev ⟨some "teapot", some (some 418), none, none⟩).statusCode
      = 418 ∧
    strField (errorHandler cfgDev ⟨some "teapot", some (some 418), none, none⟩)
      "error" = some "Internal Server Error" ∧
    (cfgDev.NODE_ENV = NodeEnv.production →
      strField (errorHandler cfgDev ⟨some "teapot", some (some 418), none, none⟩)
        "message" = some "Something went wrong") ∧
    (cfgDev.NODE_ENV ≠ NodeEnv.production →
      strField (errorHandler cfgDev ⟨some "teapot", some (some 418), none, none⟩)
        "message" =
        some (strOr (some "teapot") "Internal server error")) :=
  unrecognized_status_passthrough cfgDev
    ⟨some "teapot", some (some 418), none, none⟩ 418 rfl rfl
    (by decide) (by decide) (by decide)

/-- C2: for every error without a validation list tagged with a status code
S among {400,401,403,404,409,422,429}, the response status is S, the
envelope's `error` is the fixed category string for S, a falsy message is
replaced by the documented default where one exists (401–429), and the 400
branch sends `err.message` verbatim. -/
theorem tagged_status_mapping (cfg : Config) (e : CustomError) (S : Int)
    (hv : e.validation = none) (hs : e.statusCode = some (some S))
    (hS : S ∈ ([400, 401, 403, 404, 409, 422, 429] : List Int)) :
    (errorHandler cfg e).statusCode = S ∧
    strField (errorHandler cfg e) "error" = some (categoryFor S) ∧
    (∀ d, strTruthy e.message = false → defaultMsgFor S = some d →
      strField (errorHandler cfg e) "message" = some d) ∧
    (S = 400 → strField (errorHandler cfg e) "message" = e.message) := by
  simp only [List.mem_cons, List.not_mem_nil, or_false] at hS
  rcases hS with h | h | h | h | h | h | h
  · subst h
    refine ⟨by simp [errorHandler, hv, hs], ?_, ?_, ?_⟩
    · cases hm : e.message <;>
        simp [errorHandler, hv, hs, strField, simpleBody, getStr,
          JsonV.lookup, mkObj, List.lookup, categoryFor, hm]
    · intro d hT hd
      simp [defaultMsgFor] at hd
    · intro _
      cases hm : e.message <;>
        simp [errorHandler, hv, hs, strField, simpleBody, getStr,
          JsonV.lookup, mkObj, List.lookup, hm]
  all_goals subst h
  all_goals refine ⟨by simp [errorHandler, hv, hs],
    by simp [errorHandler, hv, hs, strField, simpleBody, getStr,
      JsonV.lookup, mkObj, List.lookup, categoryFor],
    ?_, fun h400 => absurd h400 (by decide)⟩
  all_goals intro d hT hd
  all_goals simp [defaultMsgFor] at hd
  all_goals subst hd
  all_goals simp [errorHandler, hv, hs, strField, simpleBody, getStr,
    JsonV.lookup, mkObj, List.lookup, strOr_of_falsy _ _ hT]

/-- Witness for C2: status code 404 with no message yields 404, category
`Not Found`, and the default message `Resource not found` verbatim. -/
theorem tagged_status_mapping_witness :
    (errorHandler cfgDev ⟨none, some (some 404), none, none⟩).statusCode = 404 ∧
    strField (errorHandler cfgDev ⟨none, some (some 404), none, none⟩)
      "error" = some "Not Found" ∧
    strField (errorHandler cfgDev ⟨none, some (some 404), none, none⟩)
      "message" = some "Resource not found" := by
  have h := tagged_status_mapping cfgDev ⟨none, some (some 404), none, none⟩
    404 rfl rfl (by decide)
  exact ⟨h.1, h.2.1, h.2.2.1 "Resource not found" rfl rfl⟩

/-- C3 (amended): for every error with neither validation list nor status
code property, the handler responds 500 with `error: "Internal Server
Error"`; in production the message is the fixed string `"Something went
wrong"` independent of the error, otherwise it is the error's message when
that is non-empty and the default `"Internal server error"` when the
message is absent or empty. -/
theorem untagged_error_500 (cfg : Config) (e : CustomError)
    (hv : e.validation = none) (hs : e.statusCode = none) :
    (errorHandler cfg e).statusCode = 500 ∧
    strField (errorHandler cfg e) "error" = some "Internal Server Error" ∧
    (cfg.NODE_ENV = NodeEnv.production →
      strField (errorHandler cfg e) "message" = some "Something went wrong") ∧
    (cfg.NODE_ENV ≠ NodeEnv.production →
      strField (errorHandler cfg e) "message" =
        some (strOr e.message "Internal server error")) := by
  refine ⟨?_, ?_, ?_, ?_⟩ <;>
    simp [errorHandler, hv, hs, strField, getStr, JsonV.lookup, mkObj,
      internalBody, internalMessage, List.lookup]
  · intro hp
    simp [hp]
  · intro hp
    simp [hp]

/-- Counterexample for C3: an untagged error whose original message is the
empty string, handled in non-production mode, is answered with the default
message `"Internal server error"`, not with the original (empty) message —
so the response message does not always equal the original error's
message. -/
theorem untagged_error_empty_message_cx :
    strField (errorHandler cfgDev ⟨some "", none, none, none⟩) "message" =
      some "Internal server error" ∧
    ¬ strField (errorHandler cfgDev ⟨some "", none, none, none⟩) "message" =
      some "" := by
  exact ⟨rfl, by decide⟩

/-- Witness for C3 (amended): the spec's concrete scenario — a plain error
with message `"db down"`: non-production answers with `"db down"`,
production with `"Something went wrong"`. -/
theorem untagged_error_500_witness :
    (errorHandler cfgProd ⟨some "db down", none, none, none⟩).statusCode = 500 ∧
    strField (errorHandler cfgProd ⟨some "db down", none, none, none⟩)
      "message" = some "Something went wrong" ∧
    strField (errorHandler cfgDev ⟨some "db down", none, none, none⟩)
      "message" = some "db down" := by
  refine ⟨(untagged_error_500 cfgProd _ rfl rfl).1,
    (untagged_error_500 cfgProd _ rfl rfl).2.2.1 rfl,
    (untagged_error_500 cfgDev _ rfl rfl).2.2.2 (by decide)⟩

/-- C5: the error handler is total — the Lean embedding is a total function
evaluated on every error shape, malformed ones included — and every
invocation emits exactly one status code and one terminal response, whose
`error` category is always a non-empty string; every validation entry,
even one lacking `params`, is mapped into `details` (one entry per
problem). -/
theorem handler_total (cfg : Config) (req : RequestInfo) (e : CustomError) :
    sendCount (errorHandlerTrace cfg req e) = 1 ∧
    codeCount (errorHandlerTrace cfg req e) = 1 ∧
    (∃ s, strField (errorHandler cfg e) "error" = some s ∧ s ≠ "") ∧
    (∀ probs, e.validation = some probs →
      (errorHandler cfg e).body.lookup "details" =
        some (.arr (probs.map mkDetail))) := by
  refine ⟨?_, ?_, ?_, ?_⟩
  · simp [sendCount, errorHandlerTrace, List.countP_cons, List.countP_nil,
      isSend]
  · simp [codeCount, errorHandlerTrace, List.countP_cons, List.countP_nil,
      isCode]
  · rcases e with ⟨msg, sc, val, stk⟩
    cases val with
    | some probs => exact ⟨_, rfl, by decide⟩
    | none =>
        cases sc with
        | none => exact ⟨_, rfl, by decide⟩
        | some sc' =>
            cases sc' with
            | none => exact ⟨_, rfl, by decide⟩
            | some n =>
                simp only [errorHandler]
                split_ifs <;> exact ⟨_, rfl, by decide⟩
  · intro probs hp
    simp [errorHandler, hp, JsonV.lookup, mkObj, List.lookup]

/-- Witness for C5: a params-less validation problem is still mapped, with
exactly one send effect and a non-empty error category. -/
theorem handler_total_witness :
    sendCount (errorHandlerTrace cfgDev sampleReq
      ⟨none, none, some [sampleProblem], none⟩) = 1 ∧
    (∃ s, strField (errorHandler cfgDev
      ⟨none, none, some [sampleProblem], none⟩) "error" = some s ∧ s ≠ "") ∧
    (errorHandler cfgDev
      ⟨none, none, some [sampleProblem], none⟩).body.lookup "details" =
      some (.arr ([sampleProblem].map mkDetail)) := by
  have h := handler_total cfgDev sampleReq
    ⟨none, none, some [sampleProblem], none⟩
  exact ⟨h.1, h.2.2.1, h.2.2.2 [sampleProblem] rfl⟩

/-- C6: per-request effect ordering.  On the error path the "Incoming
request" log precedes the "Request failed" log, which precedes the flush;
the error handler's own log precedes its status-code write, which precedes
the send, which precedes the flush.  On the success path the "Incoming
request" log precedes the "Request completed" log, which precedes the
flush. -/
theorem pipeline_ordering (cfg : Config) (tS : Int) (rand : List (Fin 36))
    (req : RequestInfo) (t1 t2 : Int) (e : CustomError) (status : Int)
    (respCL : Option String) :
    ((failureLifecycle cfg tS rand req t1 t2 e).findIdx
        (isLogMsg "Incoming request") <
      (failureLifecycle cfg tS rand req t1 t2 e).findIdx
        (isLogMsg "Request failed") ∧
     (failureLifecycle cfg tS rand req t1 t2 e).findIdx
        (isLogMsg "Request failed") <
      (failureLifecycle cfg tS rand req t1 t2 e).findIdx isFlush ∧
     (failureLifecycle cfg tS rand req t1 t2 e).findIdx
        (isLogMsg "Request error") <
      (failureLifecycle cfg tS rand req t1 t2 e).findIdx isCode ∧
     (failureLifecycle cfg tS rand req t1 t2 e).findIdx isCode <
      (failureLifecycle cfg tS rand req t1 t2 e).findIdx isSend ∧
     (failureLifecycle cfg tS rand req t1 t2 e).findIdx isSend <
      (failureLifecycle cfg tS rand req t1 t2 e).findIdx isFlush) ∧
    ((successLifecycle tS rand req t1 t2 status respCL).findIdx
        (isLogMsg "Incoming request") <
      (successLifecycle tS rand req t1 t2 status respCL).findIdx
        (isLogMsg "Request completed") ∧
     (successLifecycle tS rand req t1 t2 status respCL).findIdx
        (isLogMsg "Request completed") <
      (successLifecycle tS rand req t1 t2 status respCL).findIdx isFlush) := by
  simp [failureLifecycle, successLifecycle, onRequestHook, onErrorHook,
    onResponseHook, errorHandlerTrace, List.findIdx_cons, isLogMsg, isFlush,
    isCode, isSend]

/-- C7 (amended): the hook duration is the first clock reading minus the
stored start time when a (nonzero) start time is present; when it is
missing the source computes the difference of two successive `Date.now()`
readings, which is at most zero and equals zero exactly when both readings
fall in the same millisecond — it can be negative, but the hook never
throws.  Both hooks log the formatted result. -/
theorem hook_duration_amended (t1 t2 : Int) (req : RequestInfo) (ctx : ReqCtx)
    (status : Int) (respCL : Option String) (e : CustomError)
    (hmono : t1 ≤ t2) :
    ((ctx.startTime = none ∨ ctx.startTime = some 0) →
      respDuration t1 t2 ctx.startTime = t1 - t2 ∧
      respDuration t1 t2 ctx.startTime ≤ 0 ∧
      (respDuration t1 t2 ctx.startTime = 0 ↔ t1 = t2)) ∧
    (∀ s, ctx.startTime = some s → s ≠ 0 →
      respDuration t1 t2 ctx.startTime = t1 - s) ∧
    logFieldStr (onResponseHook t1 t2 req ctx status respCL)
      "Request completed" "duration" =
      some (toString (respDuration t1 t2 ctx.startTime) ++ "ms") ∧
    logFieldStr (onErrorHook t1 t2 req ctx e) "Request failed" "duration" =
      some (toString (respDuration t1 t2 ctx.startTime) ++ "ms") := by
  refine ⟨?_, ?_, ?_, ?_⟩
  · rintro (h | h) <;> simp [respDuration, h] <;> omega
  · intro s hs hs0
    simp [respDuration, hs, hs0]
  · cases hrid : ctx.requestId <;>
      simp [onResponseHook, logFieldStr, logFieldsOf, List.findSome?,
        getStr, JsonV.lookup, mkObj, List.lookup, hrid]
  · cases hrid : ctx.requestId <;>
      simp [onErrorHook, logFieldStr, logFieldsOf, List.findSome?,
        getStr, JsonV.lookup, mkObj, List.lookup, hrid]

/-- Counterexample for C7: with the start time missing from the context and
the millisecond clock advancing between the hook's two `Date.now()` calls
(first reading 5, second reading 7), the logged duration is `-2ms` —
negative, not zero. -/
theorem hook_duration_cx :
    logFieldStr (onResponseHook 5 7 sampleReq ⟨none, none⟩ 200 none)
      "Request completed" "duration" = some "-2ms" ∧
    ¬ logFieldStr (onResponseHook 5 7 sampleReq ⟨none, none⟩ 200 none)
      "Request completed" "duration" = some "0ms" :=
  ⟨rfl, by decide⟩

/-- Witness for C7 (amended): coinciding clock readings with a missing
start time give duration 0; a present start time 3 with first reading 10
gives duration 7, which is what the completion log carries. -/
theorem hook_duration_amended_witness :
    respDuration 5 5 (none : Option Int) = 5 - 5 ∧
    respDuration 5 5 (none : Option Int) ≤ 0 ∧
    respDuration 10 12 (some 3) = 10 - 3 ∧
    logFieldStr (onResponseHook 10 12 sampleReq ⟨some "abc123def", some 3⟩
      200 none) "Request completed" "duration" =
      some (toString (respDuration 10 12 (some 3)) ++ "ms") := by
  have h1 := hook_duration_amended 5 5 sampleReq ⟨none, none⟩ 200 none
    ⟨none, none, none, none⟩ (le_refl 5)
  have h2 := hook_duration_amended 10 12 sampleReq ⟨some "abc123def", some 3⟩
    200 none ⟨none, none, none, none⟩ (by decide)
  exact ⟨(h1.1 (Or.inl rfl)).1, (h1.1 (Or.inl rfl)).2.1,
    h2.2.1 3 rfl (by decide), h2.2.2.1⟩

/-- C4 (amended): the response header `X-Request-ID` is present on both the
success and the failure path and equals the correlation id stored in the
request context, and each of the "incoming request", "completed" and
"failed" log events of the request carries that same id; the id is
non-empty whenever the random draw is non-zero (`Math.random()` returning
exactly `0` yields an empty id). -/
theorem request_id_propagation (cfg : Config) (tS : Int)
    (rand : List (Fin 36)) (req : RequestInfo) (t1 t2 : Int)
    (e : CustomError) (status : Int) (respCL : Option String) :
    (onRequestHook tS rand req).1.requestId = some (genRequestId rand) ∧
    getHeader (failureLifecycle cfg tS rand req t1 t2 e) "X-Request-ID" =
      some (genRequestId rand) ∧
    getHeader (successLifecycle tS rand req t1 t2 status respCL)
      "X-Request-ID" = some (genRequestId rand) ∧
    (rand ≠ [] → genRequestId rand ≠ "") ∧
    (∀ lvl m f,
      Effect.log lvl m f ∈ failureLifecycle cfg tS rand req t1 t2 e →
      (m = "Incoming request" ∨ m = "Request completed" ∨
        m = "Request failed") →
      getStr (f.lookup "requestId") = some (genRequestId rand)) ∧
    (∀ lvl m f,
      Effect.log lvl m f ∈ successLifecycle tS rand req t1 t2 status respCL →
      (m = "Incoming request" ∨ m = "Request completed" ∨
        m = "Request failed") →
      getStr (f.lookup "requestId") = some (genRequestId rand)) := by
  refine ⟨rfl, rfl, rfl, ?_, ?_, ?_⟩
  · intro h hc
    apply h
    have hd : ((rand.take 9).map digitChar) = [] := congrArg String.data hc
    have h' := List.map_eq_nil_iff.mp hd
    rcases List.take_eq_nil_iff.mp h' with h9 | hn
    · exact absurd h9 (by decide)
    · exact hn
  · intro lvl m f hmem hm
    simp only [failureLifecycle, onRequestHook, onErrorHook,
      errorHandlerTrace, List.cons_append, List.nil_append,
      List.mem_cons, List.not_mem_nil, or_false] at hmem
    rcases hmem with h | h | h | h | h | h | h
    · simp at h
    · simp only [Effect.log.injEq] at h
      obtain ⟨-, -, hf⟩ := h
      subst hf
      simp [incomingFields, mkObj, JsonV.lookup, List.lookup, getStr]
    · simp only [Effect.log.injEq] at h
      obtain ⟨-, -, hf⟩ := h
      subst hf
      simp [mkObj, JsonV.lookup, List.lookup, getStr]
    · simp only [Effect.log.injEq] at h
      obtain ⟨-, hm', -⟩ := h
      subst hm'
      simp at hm
    · simp at h
    · simp at h
    · simp at h
  · intro lvl m f hmem hm
    simp only [successLifecycle, onRequestHook, onResponseHook,
      List.cons_append, List.nil_append, List.mem_cons, List.not_mem_nil,
      or_false] at hmem
    rcases hmem with h | h | h | h
    · simp at h
    · simp only [Effect.log.injEq] at h
      obtain ⟨-, -, hf⟩ := h
      subst hf
      simp [incomingFields, mkObj, JsonV.lookup, List.lookup, getStr]
    · simp only [Effect.log.injEq] at h
      obtain ⟨-, -, hf⟩ := h
      subst hf
      simp [mkObj, JsonV.lookup, List.lookup, getStr]
    · simp at h

/-- Counterexample for C4: when `Math.random()` returns exactly `0`, the
generated id `Math.random().toString(36).substr(2, 9)` is the empty string,
so the `X-Request-ID` header is present but empty, contradicting the
claimed non-emptiness. -/
theorem request_id_empty_cx :
    getHeader (successLifecycle 0 [] sampleReq 1 2 200 none)
      "X-Request-ID" = some "" ∧
    ¬ (∀ v, getHeader (successLifecycle 0 [] sampleReq 1 2 200 none)
        "X-Request-ID" = some v → v ≠ "") :=
  ⟨rfl, fun h => h "" rfl rfl⟩

/-- Witness for C4 (amended): a three-digit draw gives the non-empty id
`"5az"`, which the header, the context, and the incoming log all carry. -/
theorem request_id_propagation_witness :
    (onRequestHook 0 [5, 10, 35] sampleReq).1.requestId =
      some (genRequestId [5, 10, 35]) ∧
    getHeader (failureLifecycle cfgDev 0 [5, 10, 35] sampleReq 1 2
      ⟨some "boom", none, none, none⟩) "X-Request-ID" =
      some (genRequestId [5, 10, 35]) ∧
    genRequestId [5, 10, 35] ≠ "" ∧
    getStr ((incomingFields (genRequestId [5, 10, 35]) sampleReq).lookup
      "requestId") = some (genRequestId [5, 10, 35]) := by
  have h := request_id_propagation cfgDev 0 [5, 10, 35] sampleReq 1 2
    ⟨some "boom", none, none, none⟩ 200 none
  refine ⟨h.1, h.2.1, h.2.2.2.1 (by decide), ?_⟩
  refine h.2.2.2.2.1 "info" "Incoming request"
    (incomingFields (genRequestId [5, 10, 35]) sampleReq) ?_ (Or.inl rfl)
  simp [failureLifecycle, onRequestHook, List.mem_cons]

/-- C8 (amended): the error handler is deterministic in the error object and
environment — two failed requests carrying identical error objects receive
identical status codes and byte-identical envelope bodies, whatever their
request data, timing, or random draws; their `X-Request-ID` headers differ
exactly when the two random draws generate different ids (equal draws give
equal ids, uniqueness is best-effort). -/
theorem handler_deterministic (cfg : Config) (req req' : RequestInfo)
    (e : CustomError) (tS tS' t1 t1' t2 t2' : Int)
    (r r' : List (Fin 36)) :
    sentBody (failureLifecycle cfg tS r req t1 t2 e) =
      sentBody (failureLifecycle cfg tS' r' req' t1' t2' e) ∧
    sentCode (failureLifecycle cfg tS r req t1 t2 e) =
      sentCode (failureLifecycle cfg tS' r' req' t1' t2' e) ∧
    (getHeader (failureLifecycle cfg tS r req t1 t2 e) "X-Request-ID" ≠
       getHeader (failureLifecycle cfg tS' r' req' t1' t2' e)
         "X-Request-ID" ↔
     genRequestId r ≠ genRequestId r') := by
  refine ⟨rfl, rfl, ?_⟩
  constructor
  · intro h hc
    exact h (by simp [failureLifecycle, onRequestHook, getHeader, hc])
  · intro h hc
    apply h
    have : (some (genRequestId r) : Option String) =
        some (genRequestId r') := hc
    exact Option.some.inj this

/-- Counterexample for C8: two distinct requests (different URLs and
timings) whose random draws happen to coincide receive the same
`X-Request-ID` value — the envelope is identical, but the id does not
differ, contradicting the claim that it always does. -/
theorem same_draw_same_id_cx :
    getHeader (failureLifecycle cfgDev 0 [5, 10, 35] sampleReq 1 2
        ⟨some "boom", none, none, none⟩) "X-Request-ID" =
      getHeader (failureLifecycle cfgDev 100 [5, 10, 35]
        ⟨"POST", "/other", "10.0.0.1", none, none, none, .obj [], .obj [],
         .obj []⟩ 101 102 ⟨some "boom", none, none, none⟩) "X-Request-ID" ∧
    sentBody (failureLifecycle cfgDev 0 [5, 10, 35] sampleReq 1 2
        ⟨some "boom", none, none, none⟩) =
      sentBody (failureLifecycle cfgDev 100 [5, 10, 35]
        ⟨"POST", "/other", "10.0.0.1", none, none, none, .obj [], .obj [],
         .obj []⟩ 101 102 ⟨some "boom", none, none, none⟩) :=
  ⟨rfl, rfl⟩

end NodeBackend
